import Mathlib

/-
Verification of the yield-tokenizer CLI (src/src/main.rs): a shallow
embedding of the command router, its address derivations, and the
transaction-assembly pipeline, together with theorems about the
specified properties.
-/

set_option autoImplicit false

namespace YieldTokenizerCli

/-- Addresses as seen by the CLI.  The derivation functions
(`get_tokenizer_address`, `get_principal_mint_address`,
`get_yield_mint_address` from the external `lyst` crate and
`get_associated_token_address` from `spl_associated_token_account`) are
not part of this repository, so they are modelled from the spec:
deterministic, collision-resistant seed-based derivation ("same triple
always yields the same identity", "one fixed seed literal each",
"derived from (owner, token) alone").  Each derivation scheme is a free
constructor, so distinct schemes or distinct seeds give distinct
addresses, and `key n` stands for an externally supplied public key. -/
inductive Address : Type where
  | key : Nat → Address
  | tokenizerPda : Address → Address → Int → Address
  | principalPda : Address → Address → Address
  | yieldPda : Address → Address → Address
  | ata : Address → Address → Address
deriving DecidableEq, Repr

/-- Modelled from the spec: the fixed program id constant `lyst::id()`. -/
def lyst_id : Address := Address.key 0

/-- Modelled from the spec: `lyst::get_tokenizer_address(program_id,
underlying_mint, expiry)`, the deterministic PDA derivation for a
tokenizer instance. -/
def get_tokenizer_address (program_id underlying_mint : Address) (expiry : Int) : Address :=
  Address.tokenizerPda program_id underlying_mint expiry

/-- Modelled from the spec: `lyst::get_principal_mint_address(program_id,
tokenizer)`, PDA derivation with the principal-mint seed literal. -/
def get_principal_mint_address (program_id tokenizer : Address) : Address :=
  Address.principalPda program_id tokenizer

/-- Modelled from the spec: `lyst::get_yield_mint_address(program_id,
tokenizer)`, PDA derivation with the yield-mint seed literal. -/
def get_yield_mint_address (program_id tokenizer : Address) : Address :=
  Address.yieldPda program_id tokenizer

/-- Modelled from the spec:
`spl_associated_token_account::get_associated_token_address(owner, mint)`,
the standard associated-holding-address derivation. -/
def get_associated_token_address (owner mint : Address) : Address :=
  Address.ata owner mint

/-- The opaque instruction payload returned by the external
instruction-builder, recorded as the constructor that was invoked
together with its positional arguments exactly as `main.rs` passes
them. -/
inductive Instr : Type where
  | initLysergicTokenizer (tokenizer payer vault underlyingMint principalMint yieldMint : Address)
      (expiry : Int) : Instr
  | initMints (tokenizer payer principalMint yieldMint underlyingMint : Address) : Instr
  | initTokenizerAndMints (tokenizer payer vault underlyingMint principalMint yieldMint : Address)
      (expiry : Int) : Instr
  | depositUnderlying (tokenizer payer vault underlyingMint : Address) (amount : Nat) : Instr
  | tokenizePrincipal (tokenizer principalMint payer userPrincipal : Address) (amount : Nat) : Instr
  | tokenizeYield (tokenizer yieldMint payer userYield : Address) (amount : Nat) : Instr
  | depositAndTokenize
      (tokenizer vault principalMint yieldMint payer userUnderlying userPrincipal userYield : Address)
      (amount : Nat) : Instr
  | redeemPrincipalOnly
      (tokenizer vault underlyingMint principalMint payer userUnderlying userPrincipal : Address)
      (amount : Nat) : Instr
  | redeemPrincipalAndYield
      (tokenizer vault underlyingMint principalMint yieldMint payer
        userUnderlying userPrincipal userYield : Address)
      (amount : Nat) : Instr
  | claimYield (tokenizer underlyingMint yieldMint payer userUnderlying userYield : Address)
      (amount : Nat) : Instr
  | burnPrincipalToken (tokenizer principalMint payer userPrincipal : Address) (amount : Nat) : Instr
  | burnYieldToken (tokenizer yieldMint payer userYield : Address) (amount : Nat) : Instr
deriving DecidableEq, Repr

/-- Argument group of the three init actions (`InitializeCommonFields`
in `main.rs`): an underlying-mint address and an `i64` expiry. -/
structure InitializeCommonFields : Type where
  underlying_mint_address : Address
  expiry : Int
deriving DecidableEq, Repr

/-- Argument group of the nine instruction actions
(`InstructionCommonFields` in `main.rs`): tokenizer address, `u64`
amount, and an optional underlying-mint address. -/
structure InstructionCommonFields : Type where
  lysergic_tokenizer_address : Address
  amount : Nat
  underlying_mint_address : Option Address
deriving DecidableEq, Repr

/-- The `Initialize` subcommand of `main.rs` (named `InitAction` here). -/
inductive InitAction : Type where
  | tokenizer : InitializeCommonFields → InitAction
  | mints : InitializeCommonFields → InitAction
  | tokenizerMints : InitializeCommonFields → InitAction
deriving DecidableEq, Repr

/-- The `Tokenize` subcommand of `main.rs`. -/
inductive TokenizeAction : Type where
  | deposit : InstructionCommonFields → TokenizeAction
  | principal : InstructionCommonFields → TokenizeAction
  | yield : InstructionCommonFields → TokenizeAction
  | principalYield : InstructionCommonFields → TokenizeAction
deriving DecidableEq, Repr

/-- The `Redeem` subcommand of `main.rs`. -/
inductive RedeemAction : Type where
  | principal : InstructionCommonFields → RedeemAction
  | principalYield : InstructionCommonFields → RedeemAction
deriving DecidableEq, Repr

/-- The `Claim` subcommand of `main.rs`. -/
inductive ClaimAction : Type where
  | yield : InstructionCommonFields → ClaimAction
deriving DecidableEq, Repr

/-- The `Burn` subcommand of `main.rs`. -/
inductive BurnAction : Type where
  | principal : InstructionCommonFields → BurnAction
  | yield : InstructionCommonFields → BurnAction
deriving DecidableEq, Repr

/-- The `Commands` subcommand tree of `main.rs`. -/
inductive Commands : Type where
  | init : InitAction → Commands
  | tokenize : TokenizeAction → Commands
  | redeem : RedeemAction → Commands
  | claim : ClaimAction → Commands
  | burn : BurnAction → Commands
deriving DecidableEq, Repr

/-- Modelled from the spec: the behaviour of the external
instruction-builder library (`lyst::instruction`), which "returns an
opaque instruction payload or fails if inputs violate the external
program's own constraints (e.g., malformed expiry)".  `expiryValid`
is the validity predicate behind `Expiry::from_i64`, `expiryErr` the
error it returns on rejection, and `constructorErr` gives, for each
constructor invocation, the failure it reports (`none` = success). -/
structure LystEnv : Type where
  expiryValid : Int → Bool
  expiryErr : String
  constructorErr : Instr → Option String

/-- Modelled from the spec: `lyst::instruction::Expiry::from_i64`,
which validates a raw `i64` timestamp and fails when the validity
predicate rejects it. -/
def Expiry_from_i64 (env : LystEnv) (e : Int) : Except String Int :=
  if env.expiryValid e then Except.ok e else Except.error env.expiryErr

/-- One invocation of an external instruction constructor, with the
CLI's `map_err` wrapping: a failure `e` is surfaced as `wrapMsg ++ e`,
exactly as the `anyhow!` message in each arm of `main.rs`. -/
def invokeBuilder (env : LystEnv) (i : Instr) (wrapMsg : String) : Except String Instr :=
  match env.constructorErr i with
  | none => Except.ok i
  | some e => Except.error (wrapMsg ++ e)

/-- Observable events of one CLI run: each address derivation, each
external constructor invocation, the network fetch of the latest
blockhash, and the signing step. -/
inductive Event : Type where
  | derive : Address → Event
  | construct : Instr → Event
  | fetchBlockhash : Event
  | sign : Event
deriving DecidableEq, Repr

/-- The command router of `main.rs` (the `match args.cmd` expression):
given the external-builder behaviour, the wallet public key and the
parsed command, it performs the action's derivations and exactly one
constructor invocation, returning the trace of events in program order
together with the instruction or the error.  Each arm mirrors the
source arm line by line, including the order of the derivations, the
missing-underlying-mint check, the point at which `Expiry::from_i64`
is evaluated (as the constructor's last argument, before the call),
and the exact `anyhow!` wrapping message. -/
def dispatch (env : LystEnv) (wallet_pubkey : Address) : Commands → List Event × Except String Instr
  | Commands.init (InitAction.tokenizer f) =>
    let lysergic_tokenizer_address :=
      get_tokenizer_address lyst_id f.underlying_mint_address f.expiry
    let underlying_vault_address :=
      get_associated_token_address lysergic_tokenizer_address f.underlying_mint_address
    let principal_mint_address := get_principal_mint_address lyst_id lysergic_tokenizer_address
    let yield_mint_address := get_yield_mint_address lyst_id lysergic_tokenizer_address
    let tr := [Event.derive lysergic_tokenizer_address, Event.derive underlying_vault_address,
      Event.derive principal_mint_address, Event.derive yield_mint_address]
    match Expiry_from_i64 env f.expiry with
    | Except.error e => (tr, Except.error e)
    | Except.ok expiry =>
      let i := Instr.initLysergicTokenizer lysergic_tokenizer_address wallet_pubkey
        underlying_vault_address f.underlying_mint_address principal_mint_address
        yield_mint_address expiry
      (tr ++ [Event.construct i], invokeBuilder env i "Unable to create init instruction: ")
  | Commands.init (InitAction.mints f) =>
    let lysergic_tokenizer_address :=
      get_tokenizer_address lyst_id f.underlying_mint_address f.expiry
    let principal_mint_address := get_principal_mint_address lyst_id lysergic_tokenizer_address
    let yield_mint_address := get_yield_mint_address lyst_id lysergic_tokenizer_address
    let i := Instr.initMints lysergic_tokenizer_address wallet_pubkey principal_mint_address
      yield_mint_address f.underlying_mint_address
    ([Event.derive lysergic_tokenizer_address, Event.derive principal_mint_address,
        Event.derive yield_mint_address, Event.construct i],
      invokeBuilder env i "Unable to create `Initialize` instruction: ")
  | Commands.init (InitAction.tokenizerMints f) =>
    let lysergic_tokenizer_address :=
      get_tokenizer_address lyst_id f.underlying_mint_address f.expiry
    let underlying_vault_address :=
      get_associated_token_address lysergic_tokenizer_address f.underlying_mint_address
    let principal_mint_address := get_principal_mint_address lyst_id lysergic_tokenizer_address
    let yield_mint_address := get_yield_mint_address lyst_id lysergic_tokenizer_address
    let tr := [Event.derive lysergic_tokenizer_address, Event.derive underlying_vault_address,
      Event.derive principal_mint_address, Event.derive yield_mint_address]
    match Expiry_from_i64 env f.expiry with
    | Except.error e => (tr, Except.error e)
    | Except.ok expiry =>
      let i := Instr.initTokenizerAndMints lysergic_tokenizer_address wallet_pubkey
        underlying_vault_address f.underlying_mint_address principal_mint_address
        yield_mint_address expiry
      (tr ++ [Event.construct i],
        invokeBuilder env i "Unable to create `InitializeTokenizerAndMints` instruction: ")
  | Commands.tokenize (TokenizeAction.deposit f) =>
    match f.underlying_mint_address with
    | none => ([], Except.error "Underlying mint address is required")
    | some underlying_mint_address =>
      let underlying_vault :=
        get_associated_token_address f.lysergic_tokenizer_address underlying_mint_address
      let i := Instr.depositUnderlying f.lysergic_tokenizer_address wallet_pubkey
        underlying_vault underlying_mint_address f.amount
      ([Event.derive underlying_vault, Event.construct i],
        invokeBuilder env i "Unable to create `Deposit` instruction: ")
  | Commands.tokenize (TokenizeAction.principal f) =>
    let principal_mint_address := get_principal_mint_address lyst_id f.lysergic_tokenizer_address
    let user_principal_token_address :=
      get_associated_token_address wallet_pubkey principal_mint_address
    let i := Instr.tokenizePrincipal f.lysergic_tokenizer_address principal_mint_address
      wallet_pubkey user_principal_token_address f.amount
    ([Event.derive principal_mint_address, Event.derive user_principal_token_address,
        Event.construct i],
      invokeBuilder env i "Unable to create `TokenizePrincipal` instruction: ")
  | Commands.tokenize (TokenizeAction.yield f) =>
    let yield_mint_address := get_yield_mint_address lyst_id f.lysergic_tokenizer_address
    let user_yield_token_address := get_associated_token_address wallet_pubkey yield_mint_address
    let i := Instr.tokenizeYield f.lysergic_tokenizer_address yield_mint_address wallet_pubkey
      user_yield_token_address f.amount
    ([Event.derive yield_mint_address, Event.derive user_yield_token_address, Event.construct i],
      invokeBuilder env i "Unable to create `TokenizeYield` instruction: ")
  | Commands.tokenize (TokenizeAction.principalYield f) =>
    match f.underlying_mint_address with
    | none => ([], Except.error "Underlying mint address is required")
    | some underlying_mint_address =>
      let underlying_vault :=
        get_associated_token_address f.lysergic_tokenizer_address underlying_mint_address
      let principal_mint_address := get_principal_mint_address lyst_id f.lysergic_tokenizer_address
      let yield_mint_address := get_yield_mint_address lyst_id f.lysergic_tokenizer_address
      let user_underlying_token_address :=
        get_associated_token_address wallet_pubkey underlying_mint_address
      let user_principal_token_address :=
        get_associated_token_address wallet_pubkey principal_mint_address
      let user_yield_token_address :=
        get_associated_token_address wallet_pubkey yield_mint_address
      let i := Instr.depositAndTokenize f.lysergic_tokenizer_address underlying_vault
        principal_mint_address yield_mint_address wallet_pubkey user_underlying_token_address
        user_principal_token_address user_yield_token_address f.amount
      ([Event.derive underlying_vault, Event.derive principal_mint_address,
          Event.derive yield_mint_address, Event.derive user_underlying_token_address,
          Event.derive user_principal_token_address, Event.derive user_yield_token_address,
          Event.construct i],
        invokeBuilder env i "Unable to create `DepositAndTokenize` instruction: ")
  | Commands.redeem (RedeemAction.principal f) =>
    match f.underlying_mint_address with
    | none => ([], Except.error "Underlying mint address is required")
    | some underlying_mint_address =>
      let underlying_vault_address :=
        get_associated_token_address f.lysergic_tokenizer_address underlying_mint_address
      let principal_mint_address := get_principal_mint_address lyst_id f.lysergic_tokenizer_address
      let user_underlying_token_address :=
        get_associated_token_address wallet_pubkey underlying_mint_address
      let user_principal_token_address :=
        get_associated_token_address wallet_pubkey principal_mint_address
      let i := Instr.redeemPrincipalOnly f.lysergic_tokenizer_address underlying_vault_address
        underlying_mint_address principal_mint_address wallet_pubkey
        user_underlying_token_address user_principal_token_address f.amount
      ([Event.derive underlying_vault_address, Event.derive principal_mint_address,
          Event.derive user_underlying_token_address, Event.derive user_principal_token_address,
          Event.construct i],
        invokeBuilder env i "Unable to create `RedeemPrincipalOnly` instruction: ")
  | Commands.redeem (RedeemAction.principalYield f) =>
    match f.underlying_mint_address with
    | none => ([], Except.error "Underlying mint address is required")
    | some underlying_mint_address =>
      let underlying_vault_address :=
        get_associated_token_address f.lysergic_tokenizer_address underlying_mint_address
      let principal_mint_address := get_principal_mint_address lyst_id f.lysergic_tokenizer_address
      let yield_mint_address := get_yield_mint_address lyst_id f.lysergic_tokenizer_address
      let user_underlying_token_address :=
        get_associated_token_address wallet_pubkey underlying_mint_address
      let user_principal_token_address :=
        get_associated_token_address wallet_pubkey principal_mint_address
      let user_yield_token_address :=
        get_associated_token_address wallet_pubkey yield_mint_address
      let i := Instr.redeemPrincipalAndYield f.lysergic_tokenizer_address
        underlying_vault_address underlying_mint_address principal_mint_address
        yield_mint_address wallet_pubkey user_underlying_token_address
        user_principal_token_address user_yield_token_address f.amount
      ([Event.derive underlying_vault_address, Event.derive principal_mint_address,
          Event.derive yield_mint_address, Event.derive user_underlying_token_address,
          Event.derive user_principal_token_address, Event.derive user_yield_token_address,
          Event.construct i],
        invokeBuilder env i "Unable to create `RedeemPrincipalAndYield` instruction: ")
  | Commands.claim (ClaimAction.yield f) =>
    match f.underlying_mint_address with
    | none => ([], Except.error "Underlying mint address is required")
    | some underlying_mint_address =>
      let yield_mint_address := get_yield_mint_address lyst_id f.lysergic_tokenizer_address
      let user_underlying_token_address :=
        get_associated_token_address wallet_pubkey underlying_mint_address
      let user_yield_token_address :=
        get_associated_token_address wallet_pubkey yield_mint_address
      let i := Instr.claimYield f.lysergic_tokenizer_address underlying_mint_address
        yield_mint_address wallet_pubkey user_underlying_token_address
        user_yield_token_address f.amount
      ([Event.derive yield_mint_address, Event.derive user_underlying_token_address,
          Event.derive user_yield_token_address, Event.construct i],
        invokeBuilder env i "Unable to create `ClaimYield` instruction: ")
  | Commands.burn (BurnAction.principal f) =>
    let principal_mint_address := get_principal_mint_address lyst_id f.lysergic_tokenizer_address
    let user_principal_token_address :=
      get_associated_token_address wallet_pubkey principal_mint_address
    let i := Instr.burnPrincipalToken f.lysergic_tokenizer_address principal_mint_address
      wallet_pubkey user_principal_token_address f.amount
    ([Event.derive principal_mint_address, Event.derive user_principal_token_address,
        Event.construct i],
      invokeBuilder env i "Unable to create `BurnPrincipal` instruction: ")
  | Commands.burn (BurnAction.yield f) =>
    let yield_mint_address := get_yield_mint_address lyst_id f.lysergic_tokenizer_address
    let user_yield_token_address := get_associated_token_address wallet_pubkey yield_mint_address
    let i := Instr.burnYieldToken f.lysergic_tokenizer_address yield_mint_address wallet_pubkey
      user_yield_token_address f.amount
    ([Event.derive yield_mint_address, Event.derive user_yield_token_address, Event.construct i],
      invokeBuilder env i "Unable to create `BurnYield` instruction: ")

/-- The addresses derived during a run, in order: the projection of the
`Event.derive` entries of a trace. -/
def derivesOf : List Event → List Address
  | [] => []
  | Event.derive a :: es => a :: derivesOf es
  | Event.construct _ :: es => derivesOf es
  | Event.fetchBlockhash :: es => derivesOf es
  | Event.sign :: es => derivesOf es

/-- The external constructor invocations of a trace, in order. -/
def constructsOf : List Event → List Instr
  | [] => []
  | Event.derive _ :: es => constructsOf es
  | Event.construct i :: es => i :: constructsOf es
  | Event.fetchBlockhash :: es => constructsOf es
  | Event.sign :: es => constructsOf es

/-- The tail of `main` after the keypair is loaded: dispatch the
command, then (lines 472-479 of `main.rs`) assemble the transaction,
fetch the latest blockhash from the RPC client — wrapping a failure as
`anyhow!("Unable to get latest blockhash: {}", err)` — and finally
sign.  `rpcFailure` is the RPC collaborator's behaviour: `none` means
the blockhash fetch succeeds, `some e` that it fails with cause `e`. -/
def mainRun (env : LystEnv) (wallet_pubkey : Address) (cmd : Commands)
    (rpcFailure : Option String) : List Event × Except String Unit :=
  match dispatch env wallet_pubkey cmd with
  | (tr, Except.error e) => (tr, Except.error e)
  | (tr, Except.ok _) =>
    match rpcFailure with
    | some e =>
      (tr ++ [Event.fetchBlockhash], Except.error ("Unable to get latest blockhash: " ++ e))
    | none => (tr ++ [Event.fetchBlockhash, Event.sign], Except.ok ())

/-- The slice of `solana_cli_config::Config` that `main.rs` reads:
the RPC URL and the keypair file path. -/
structure Config : Type where
  json_rpc_url : String
  keypair_path : String
deriving DecidableEq, Repr

/-- Modelled from the spec: the built-in defaults of the configuration
source (`solana_cli_config::Config::default()`), used as fallback. -/
def defaultConfig : Config :=
  { json_rpc_url := "default_json_rpc_url", keypair_path := "default_keypair_path" }

/-- Configuration loading as `main.rs` lines 93-97 perform it:
`configFileLoad` is `none` when `*solana_cli_config::CONFIG_FILE` is
`None`, and otherwise holds the outcome of `Config::load` on the
default config path.  A load failure (missing or malformed file) is
swallowed by `unwrap_or_default()`. -/
def loadSolanaConfig (configFileLoad : Option (Except String Config)) : Config :=
  match configFileLoad with
  | some (Except.ok c) => c
  | some (Except.error _) => defaultConfig
  | none => defaultConfig

/-- The top-level clap argument structure `Cli` of `main.rs`: the three
global overrides and the subcommand. -/
structure Cli : Type where
  config : Option String
  rpc : Option String
  payer : Option String
  cmd : Commands
deriving DecidableEq, Repr

/-- The configuration `main.rs` actually runs with, as a function of
the parsed arguments and the config-file load outcome.  The source
never reads `args.config`, `args.rpc` or `args.payer`; it uses the
loaded `solana_config_file` unconditionally. -/
def effectiveConfig (_args : Cli) (configFileLoad : Option (Except String Config)) : Config :=
  loadSolanaConfig configFileLoad

/-- The whole of `main`: load configuration, read the wallet keypair
from the configured path — wrapping a failure as
`anyhow!("Unable to read keypair file: {}", err)` — create the RPC
client against the configured URL, then dispatch and finish via
`mainRun`.  `readKeypair` is the keypair-provider collaborator, mapping
a file path to the wallet's public key or a read error. -/
def mainFull (env : LystEnv) (args : Cli) (configFileLoad : Option (Except String Config))
    (readKeypair : String → Except String Address) (rpcFailure : Option String) :
    List Event × Except String Unit :=
  let solana_config_file := loadSolanaConfig configFileLoad
  match readKeypair solana_config_file.keypair_path with
  | Except.error e => ([], Except.error ("Unable to read keypair file: " ++ e))
  | Except.ok wallet_pubkey => mainRun env wallet_pubkey args.cmd rpcFailure

/-- The canonical names of the router's leaf actions, as the spec
enumerates them. -/
def leafActionNames : List String :=
  ["init-tokenizer", "init-mints", "init-tokenizer-and-mints",
   "tokenize-deposit", "tokenize-principal", "tokenize-yield", "tokenize-principal-yield",
   "redeem-principal", "redeem-principal-yield",
   "claim-yield", "burn-principal", "burn-yield"]

/-- The leaf action a parsed command selects: one name per arm of the
exhaustive match in `main.rs`. -/
def actionName : Commands → String
  | Commands.init (InitAction.tokenizer _) => "init-tokenizer"
  | Commands.init (InitAction.mints _) => "init-mints"
  | Commands.init (InitAction.tokenizerMints _) => "init-tokenizer-and-mints"
  | Commands.tokenize (TokenizeAction.deposit _) => "tokenize-deposit"
  | Commands.tokenize (TokenizeAction.principal _) => "tokenize-principal"
  | Commands.tokenize (TokenizeAction.yield _) => "tokenize-yield"
  | Commands.tokenize (TokenizeAction.principalYield _) => "tokenize-principal-yield"
  | Commands.redeem (RedeemAction.principal _) => "redeem-principal"
  | Commands.redeem (RedeemAction.principalYield _) => "redeem-principal-yield"
  | Commands.claim (ClaimAction.yield _) => "claim-yield"
  | Commands.burn (BurnAction.principal _) => "burn-principal"
  | Commands.burn (BurnAction.yield _) => "burn-yield"

/-- The wrapping message each arm of `main.rs` puts in front of an
external constructor failure (the `anyhow!` format string up to the
cause). -/
def actionWrapMsg : Commands → String
  | Commands.init (InitAction.tokenizer _) => "Unable to create init instruction: "
  | Commands.init (InitAction.mints _) => "Unable to create `Initialize` instruction: "
  | Commands.init (InitAction.tokenizerMints _) =>
    "Unable to create `InitializeTokenizerAndMints` instruction: "
  | Commands.tokenize (TokenizeAction.deposit _) => "Unable to create `Deposit` instruction: "
  | Commands.tokenize (TokenizeAction.principal _) =>
    "Unable to create `TokenizePrincipal` instruction: "
  | Commands.tokenize (TokenizeAction.yield _) => "Unable to create `TokenizeYield` instruction: "
  | Commands.tokenize (TokenizeAction.principalYield _) =>
    "Unable to create `DepositAndTokenize` instruction: "
  | Commands.redeem (RedeemAction.principal _) =>
    "Unable to create `RedeemPrincipalOnly` instruction: "
  | Commands.redeem (RedeemAction.principalYield _) =>
    "Unable to create `RedeemPrincipalAndYield` instruction: "
  | Commands.claim (ClaimAction.yield _) => "Unable to create `ClaimYield` instruction: "
  | Commands.burn (BurnAction.principal _) => "Unable to create `BurnPrincipal` instruction: "
  | Commands.burn (BurnAction.yield _) => "Unable to create `BurnYield` instruction: "

/-- Dispatch never emits a signing event: signing happens only in the
transaction-assembly tail of `main`, after dispatch has returned. -/
theorem sign_not_in_dispatch_trace (env : LystEnv) (wallet : Address) (cmd : Commands) :
    Event.sign ∉ (dispatch env wallet cmd).1 := by
  cases cmd with
  | init a =>
    cases a with
    | tokenizer f =>
      simp only [dispatch]
      cases Expiry_from_i64 env f.expiry <;> simp
    | mints f => simp [dispatch]
    | tokenizerMints f =>
      simp only [dispatch]
      cases Expiry_from_i64 env f.expiry <;> simp
  | tokenize a =>
    cases a with
    | deposit f =>
      simp only [dispatch]
      cases f.underlying_mint_address <;> simp
    | principal f => simp [dispatch]
    | yield f => simp [dispatch]
    | principalYield f =>
      simp only [dispatch]
      cases f.underlying_mint_address <;> simp
  | redeem a =>
    cases a with
    | principal f =>
      simp only [dispatch]
      cases f.underlying_mint_address <;> simp
    | principalYield f =>
      simp only [dispatch]
      cases f.underlying_mint_address <;> simp
  | claim a =>
    cases a with
    | yield f =>
      simp only [dispatch]
      cases f.underlying_mint_address <;> simp
  | burn a =>
    cases a with
    | principal f => simp [dispatch]
    | yield f => simp [dispatch]

/-- C1: dispatch of `tokenize principal-yield` with tokenizer address
`T`, amount `1000` and underlying mint `U` derives exactly six
addresses — the vault, the principal mint, the yield mint, and the
user's underlying, principal and yield holding addresses, in that
order — and then invokes the external constructor
`deposit_and_tokenize` exactly once, passing those six addresses plus
the amount `1000` in the documented positional order. -/
theorem C1_principal_yield_six_derivations (env : LystEnv) (wallet T U : Address) :
    derivesOf (dispatch env wallet
        (Commands.tokenize (TokenizeAction.principalYield ⟨T, 1000, some U⟩))).1 =
      [get_associated_token_address T U,
       get_principal_mint_address lyst_id T,
       get_yield_mint_address lyst_id T,
       get_associated_token_address wallet U,
       get_associated_token_address wallet (get_principal_mint_address lyst_id T),
       get_associated_token_address wallet (get_yield_mint_address lyst_id T)] ∧
    constructsOf (dispatch env wallet
        (Commands.tokenize (TokenizeAction.principalYield ⟨T, 1000, some U⟩))).1 =
      [Instr.depositAndTokenize T
        (get_associated_token_address T U)
        (get_principal_mint_address lyst_id T)
        (get_yield_mint_address lyst_id T)
        wallet
        (get_associated_token_address wallet U)
        (get_associated_token_address wallet (get_principal_mint_address lyst_id T))
        (get_associated_token_address wallet (get_yield_mint_address lyst_id T))
        1000] :=
  ⟨rfl, rfl⟩

/-- C2: for each of the five actions that require the optional
underlying-mint address (`tokenize deposit`, `tokenize
principal-yield`, `redeem principal`, `redeem principal-yield`,
`claim yield`), omitting that address makes the run fail with the
required-field error together with an empty event trace: zero
derivations, zero constructor invocations and zero network calls,
whatever the RPC collaborator would have done. -/
theorem C2_missing_underlying_mint_fails_early (env : LystEnv) (wallet T : Address)
    (amount : Nat) (rpcFailure : Option String) :
    mainRun env wallet (Commands.tokenize (TokenizeAction.deposit ⟨T, amount, none⟩))
        rpcFailure = ([], Except.error "Underlying mint address is required") ∧
    mainRun env wallet (Commands.tokenize (TokenizeAction.principalYield ⟨T, amount, none⟩))
        rpcFailure = ([], Except.error "Underlying mint address is required") ∧
    mainRun env wallet (Commands.redeem (RedeemAction.principal ⟨T, amount, none⟩))
        rpcFailure = ([], Except.error "Underlying mint address is required") ∧
    mainRun env wallet (Commands.redeem (RedeemAction.principalYield ⟨T, amount, none⟩))
        rpcFailure = ([], Except.error "Underlying mint address is required") ∧
    mainRun env wallet (Commands.claim (ClaimAction.yield ⟨T, amount, none⟩))
        rpcFailure = ([], Except.error "Underlying mint address is required") :=
  ⟨rfl, rfl, rfl, rfl, rfl⟩

/-- C8: tokenizer-address derivation is deterministic — two calls on
identical `(programId, underlyingMint, expiry)` triples return
identical addresses. -/
theorem C8_tokenizer_address_deterministic (p₁ p₂ u₁ u₂ : Address) (e₁ e₂ : Int)
    (hp : p₁ = p₂) (hu : u₁ = u₂) (he : e₁ = e₂) :
    get_tokenizer_address p₁ u₁ e₁ = get_tokenizer_address p₂ u₂ e₂ := by
  rw [hp, hu, he]

/-- Witness for C8 at a concrete triple. -/
theorem C8_tokenizer_address_deterministic_witness :
    get_tokenizer_address lyst_id (Address.key 1) 7 =
      get_tokenizer_address lyst_id (Address.key 1) 7 :=
  C8_tokenizer_address_deterministic lyst_id lyst_id (Address.key 1) (Address.key 1) 7 7
    rfl rfl rfl

/-- C9: for every `(programId, tokenizerAddress)` pair the derived
principal mint, the derived yield mint and the tokenizer address
itself are pairwise distinct. -/
theorem C9_mint_addresses_distinct (p t : Address) :
    get_principal_mint_address p t ≠ get_yield_mint_address p t ∧
    get_principal_mint_address p t ≠ t ∧
    get_yield_mint_address p t ≠ t := by
  unfold get_principal_mint_address get_yield_mint_address
  refine ⟨fun h => Address.noConfusion h, fun h => ?_, fun h => ?_⟩
  · have hs := congrArg sizeOf h
    simp at hs
  · have hs := congrArg sizeOf h
    simp at hs

/-- C4: whenever instruction construction succeeds but the RPC
blockhash fetch fails, the run still performed every local derivation
of the action (the whole dispatch trace `tr` is present), attempted the
fetch, aborted with the wrapped network error, and never reached the
signing step — no signature is produced. -/
theorem C4_rpc_failure_aborts_before_sign (env : LystEnv) (wallet : Address) (cmd : Commands)
    (tr : List Event) (i : Instr) (e : String)
    (h : dispatch env wallet cmd = (tr, Except.ok i)) :
    mainRun env wallet cmd (some e) =
      (tr ++ [Event.fetchBlockhash], Except.error ("Unable to get latest blockhash: " ++ e)) ∧
    Event.sign ∉ tr ++ [Event.fetchBlockhash] := by
  constructor
  · unfold mainRun
    rw [h]
  · have hs := sign_not_in_dispatch_trace env wallet cmd
    rw [h] at hs
    simp only [List.mem_append, List.mem_singleton]
    rintro (hin | hin)
    · exact hs hin
    · exact Event.noConfusion hin

/-- Environment in which the external builder accepts everything:
every expiry is valid and no constructor fails. -/
def allOkEnv : LystEnv := ⟨fun _ => true, "never", fun _ => none⟩

/-- Witness for C4: a concrete `burn principal` invocation whose
construction succeeds and whose blockhash fetch then fails. -/
theorem C4_rpc_failure_aborts_before_sign_witness :
    mainRun allOkEnv (Address.key 1)
        (Commands.burn (BurnAction.principal ⟨Address.key 2, 5, none⟩)) (some "connection refused") =
      ([Event.derive (get_principal_mint_address lyst_id (Address.key 2)),
        Event.derive (get_associated_token_address (Address.key 1)
          (get_principal_mint_address lyst_id (Address.key 2))),
        Event.construct (Instr.burnPrincipalToken (Address.key 2)
          (get_principal_mint_address lyst_id (Address.key 2)) (Address.key 1)
          (get_associated_token_address (Address.key 1)
            (get_principal_mint_address lyst_id (Address.key 2))) 5)] ++
        [Event.fetchBlockhash],
       Except.error ("Unable to get latest blockhash: " ++ "connection refused")) ∧
    Event.sign ∉
      [Event.derive (get_principal_mint_address lyst_id (Address.key 2)),
       Event.derive (get_associated_token_address (Address.key 1)
         (get_principal_mint_address lyst_id (Address.key 2))),
       Event.construct (Instr.burnPrincipalToken (Address.key 2)
         (get_principal_mint_address lyst_id (Address.key 2)) (Address.key 1)
         (get_associated_token_address (Address.key 1)
           (get_principal_mint_address lyst_id (Address.key 2))) 5)] ++
        [Event.fetchBlockhash] :=
  C4_rpc_failure_aborts_before_sign allOkEnv (Address.key 1)
    (Commands.burn (BurnAction.principal ⟨Address.key 2, 5, none⟩)) _ _ "connection refused" rfl

/-- Environment in which the validity predicate rejects every expiry
while no constructor of the external builder fails on its own. -/
def rejectAllEnv : LystEnv := ⟨fun _ => false, "expiry out of range", fun _ => none⟩

/-- C3 counterexample: with a validity predicate that rejects the
expiry `5`, dispatch of `init mints` still uses the raw expiry as an
input to tokenizer-address derivation and its construction succeeds —
contradicting the claim that the expiry passes the validity predicate
before any use and that construction fails otherwise. -/
theorem C3_counterexample :
    rejectAllEnv.expiryValid 5 = false ∧
    Event.derive (get_tokenizer_address lyst_id (Address.key 2) 5) ∈
      (dispatch rejectAllEnv (Address.key 1)
        (Commands.init (InitAction.mints ⟨Address.key 2, 5⟩))).1 ∧
    (dispatch rejectAllEnv (Address.key 1)
        (Commands.init (InitAction.mints ⟨Address.key 2, 5⟩))).2 =
      Except.ok (Instr.initMints
        (get_tokenizer_address lyst_id (Address.key 2) 5)
        (Address.key 1)
        (get_principal_mint_address lyst_id (get_tokenizer_address lyst_id (Address.key 2) 5))
        (get_yield_mint_address lyst_id (get_tokenizer_address lyst_id (Address.key 2) 5))
        (Address.key 2)) :=
  ⟨rfl, by simp [dispatch], rfl⟩

/-- C3 amended: for `init tokenizer` and `init tokenizer-mints` an
expiry rejected by the validity predicate makes dispatch fail with the
predicate's error — but only after the raw expiry has already been
used as an input to tokenizer-address derivation — while `init mints`
performs no expiry validation at all: its construction succeeds for
any expiry whenever the external constructor itself succeeds. -/
theorem C3_amended_expiry_validation (env : LystEnv) (wallet : Address)
    (f : InitializeCommonFields) (h : env.expiryValid f.expiry = false) :
    ((dispatch env wallet (Commands.init (InitAction.tokenizer f))).2 =
        Except.error env.expiryErr ∧
      Event.derive (get_tokenizer_address lyst_id f.underlying_mint_address f.expiry) ∈
        (dispatch env wallet (Commands.init (InitAction.tokenizer f))).1) ∧
    ((dispatch env wallet (Commands.init (InitAction.tokenizerMints f))).2 =
        Except.error env.expiryErr ∧
      Event.derive (get_tokenizer_address lyst_id f.underlying_mint_address f.expiry) ∈
        (dispatch env wallet (Commands.init (InitAction.tokenizerMints f))).1) ∧
    (env.constructorErr (Instr.initMints
        (get_tokenizer_address lyst_id f.underlying_mint_address f.expiry) wallet
        (get_principal_mint_address lyst_id
          (get_tokenizer_address lyst_id f.underlying_mint_address f.expiry))
        (get_yield_mint_address lyst_id
          (get_tokenizer_address lyst_id f.underlying_mint_address f.expiry))
        f.underlying_mint_address) = none →
      (dispatch env wallet (Commands.init (InitAction.mints f))).2 =
        Except.ok (Instr.initMints
          (get_tokenizer_address lyst_id f.underlying_mint_address f.expiry) wallet
          (get_principal_mint_address lyst_id
            (get_tokenizer_address lyst_id f.underlying_mint_address f.expiry))
          (get_yield_mint_address lyst_id
            (get_tokenizer_address lyst_id f.underlying_mint_address f.expiry))
          f.underlying_mint_address)) := by
  refine ⟨⟨?_, ?_⟩, ⟨?_, ?_⟩, ?_⟩
  · simp [dispatch, Expiry_from_i64, h]
  · simp [dispatch, Expiry_from_i64, h]
  · simp [dispatch, Expiry_from_i64, h]
  · simp [dispatch, Expiry_from_i64, h]
  · intro hc
    simp [dispatch, invokeBuilder, hc]

/-- Witness for C3's amended statement at a concrete rejected expiry. -/
theorem C3_amended_expiry_validation_witness :
    ((dispatch rejectAllEnv (Address.key 1)
        (Commands.init (InitAction.tokenizer ⟨Address.key 2, 5⟩))).2 =
        Except.error rejectAllEnv.expiryErr ∧
      Event.derive (get_tokenizer_address lyst_id (Address.key 2) 5) ∈
        (dispatch rejectAllEnv (Address.key 1)
          (Commands.init (InitAction.tokenizer ⟨Address.key 2, 5⟩))).1) ∧
    ((dispatch rejectAllEnv (Address.key 1)
        (Commands.init (InitAction.tokenizerMints ⟨Address.key 2, 5⟩))).2 =
        Except.error rejectAllEnv.expiryErr ∧
      Event.derive (get_tokenizer_address lyst_id (Address.key 2) 5) ∈
        (dispatch rejectAllEnv (Address.key 1)
          (Commands.init (InitAction.tokenizerMints ⟨Address.key 2, 5⟩))).1) ∧
    (rejectAllEnv.constructorErr (Instr.initMints
        (get_tokenizer_address lyst_id (Address.key 2) 5) (Address.key 1)
        (get_principal_mint_address lyst_id (get_tokenizer_address lyst_id (Address.key 2) 5))
        (get_yield_mint_address lyst_id (get_tokenizer_address lyst_id (Address.key 2) 5))
        (Address.key 2)) = none →
      (dispatch rejectAllEnv (Address.key 1)
          (Commands.init (InitAction.mints ⟨Address.key 2, 5⟩))).2 =
        Except.ok (Instr.initMints
          (get_tokenizer_address lyst_id (Address.key 2) 5) (Address.key 1)
          (get_principal_mint_address lyst_id (get_tokenizer_address lyst_id (Address.key 2) 5))
          (get_yield_mint_address lyst_id (get_tokenizer_address lyst_id (Address.key 2) 5))
          (Address.key 2))) :=
  C3_amended_expiry_validation rejectAllEnv (Address.key 1) ⟨Address.key 2, 5⟩ rfl

/-- Concrete configuration-file contents used to exercise the
override-handling of `main`. -/
def fileConfig : Config := ⟨"file_rpc_url", "file_keypair_path"⟩

/-- Concrete invocation supplying all three global overrides. -/
def overrideArgs : Cli :=
  ⟨some "/tmp/override-config.yml", some "https://override.example",
   some "/tmp/override-keypair.json",
   Commands.burn (BurnAction.principal ⟨Address.key 2, 5, none⟩)⟩

/-- Keypair provider that can read only the config file's keypair path
and fails on every other path, in particular on the override path. -/
def fileOnlyKeypairReader : String → Except String Address :=
  fun p =>
    if p = "file_keypair_path" then Except.ok (Address.key 1)
    else Except.error "No such file or directory"

/-- C5: the global overrides are parsed but never consulted — `main`
runs with the configuration loaded from the default config-file
location regardless of `--config`, `--rpc` and `--payer`.  At the
failing input (all three overrides supplied), the effective RPC URL
and keypair path are the config file's, not the overridden ones, and
the run succeeds even though the overridden keypair path is
unreadable, showing the override path is never read. -/
theorem C5_overrides_ignored :
    effectiveConfig overrideArgs (some (Except.ok fileConfig)) = fileConfig ∧
    fileConfig.json_rpc_url ≠ "https://override.example" ∧
    fileConfig.keypair_path ≠ "/tmp/override-keypair.json" ∧
    fileOnlyKeypairReader "/tmp/override-keypair.json" =
      Except.error "No such file or directory" ∧
    (mainFull allOkEnv overrideArgs (some (Except.ok fileConfig))
        fileOnlyKeypairReader none).2 = Except.ok () :=
  ⟨rfl, by decide, by decide, by simp [fileOnlyKeypairReader], rfl⟩

/-- Concrete invocation with no overrides. -/
def plainArgs : Cli :=
  ⟨none, none, none, Commands.burn (BurnAction.principal ⟨Address.key 2, 5, none⟩)⟩

/-- Keypair provider that can read only the built-in default keypair
path. -/
def defaultOnlyKeypairReader : String → Except String Address :=
  fun p =>
    if p = "default_keypair_path" then Except.ok (Address.key 1)
    else Except.error "No such file or directory"

/-- C6 counterexample: with a malformed configuration file the program
does not fail — `Config::load(..).unwrap_or_default()` silently falls
back to the default configuration and the run completes successfully,
contradicting the claim of a fatal configuration error. -/
theorem C6_counterexample :
    loadSolanaConfig (some (Except.error "malformed config file")) = defaultConfig ∧
    (mainFull allOkEnv plainArgs (some (Except.error "malformed config file"))
        defaultOnlyKeypairReader none).2 = Except.ok () :=
  ⟨rfl, rfl⟩

/-- C6 amended: a malformed configuration file is swallowed — loading
falls back to the built-in default configuration and execution
continues — while an unreadable keypair file is the fatal
configuration error, reported with its underlying cause. -/
theorem C6_amended_config_fallback (e cause : String) (env : LystEnv) (args : Cli)
    (configFileLoad : Option (Except String Config))
    (rk : String → Except String Address) (rpcFailure : Option String)
    (hk : rk (loadSolanaConfig configFileLoad).keypair_path = Except.error cause) :
    loadSolanaConfig (some (Except.error e)) = defaultConfig ∧
    mainFull env args configFileLoad rk rpcFailure =
      ([], Except.error ("Unable to read keypair file: " ++ cause)) := by
  constructor
  · rfl
  · simp only [mainFull, hk]

/-- Witness for C6's amended statement: malformed config falls back to
defaults, and a keypair reader that fails everywhere aborts the run
with the wrapped cause. -/
theorem C6_amended_config_fallback_witness :
    loadSolanaConfig (some (Except.error "malformed config file")) = defaultConfig ∧
    mainFull allOkEnv plainArgs none (fun _ => Except.error "permission denied") none =
      ([], Except.error ("Unable to read keypair file: " ++ "permission denied")) :=
  C6_amended_config_fallback "malformed config file" "permission denied" allOkEnv plainArgs
    none (fun _ => Except.error "permission denied") none rfl

/-- C7 counterexample: rejection of an invalid expiry surfaces as the
bare `Expiry::from_i64` error, not wrapped with any action name — two
different actions (`init tokenizer` and `init tokenizer-mints`, whose
wrap messages differ) fail with the identical message, so the message
cannot identify which action failed. -/
theorem C7_counterexample :
    (dispatch rejectAllEnv (Address.key 1)
        (Commands.init (InitAction.tokenizer ⟨Address.key 2, 5⟩))).2 =
      Except.error "expiry out of range" ∧
    (dispatch rejectAllEnv (Address.key 1)
        (Commands.init (InitAction.tokenizerMints ⟨Address.key 2, 5⟩))).2 =
      Except.error "expiry out of range" ∧
    actionWrapMsg (Commands.init (InitAction.tokenizer ⟨Address.key 2, 5⟩)) ≠
      actionWrapMsg (Commands.init (InitAction.tokenizerMints ⟨Address.key 2, 5⟩)) :=
  ⟨rfl, rfl, by decide⟩

/-- C7 amended: every failure of an external instruction-constructor
function (a cause `e` reported for the instruction that dispatch
actually invoked) is surfaced as a fatal error formed from the
action-identifying wrap message of the dispatched command followed by
the cause; only `Expiry::from_i64` rejections escape this wrapping. -/
theorem C7_amended_constructor_failures_wrapped (env : LystEnv) (wallet : Address)
    (cmd : Commands) (i : Instr) (e : String)
    (hmem : i ∈ constructsOf (dispatch env wallet cmd).1)
    (herr : env.constructorErr i = some e) :
    (dispatch env wallet cmd).2 = Except.error (actionWrapMsg cmd ++ e) := by
  cases cmd with
  | init a =>
    cases a with
    | tokenizer f =>
      rcases hE : Expiry_from_i64 env f.expiry with e' | ex
      · simp [dispatch, hE, constructsOf] at hmem
      · simp only [dispatch, hE, constructsOf] at hmem ⊢
        simp at hmem
        subst hmem
        simp [invokeBuilder, herr, actionWrapMsg]
    | mints f =>
      simp only [dispatch, constructsOf] at hmem ⊢
      simp at hmem
      subst hmem
      simp [invokeBuilder, herr, actionWrapMsg]
    | tokenizerMints f =>
      rcases hE : Expiry_from_i64 env f.expiry with e' | ex
      · simp [dispatch, hE, constructsOf] at hmem
      · simp only [dispatch, hE, constructsOf] at hmem ⊢
        simp at hmem
        subst hmem
        simp [invokeBuilder, herr, actionWrapMsg]
  | tokenize a =>
    cases a with
    | deposit f =>
      rcases hU : f.underlying_mint_address with _ | u
      · simp [dispatch, hU, constructsOf] at hmem
      · simp only [dispatch, hU, constructsOf] at hmem ⊢
        simp at hmem
        subst hmem
        simp [invokeBuilder, herr, actionWrapMsg]
    | principal f =>
      simp only [dispatch, constructsOf] at hmem ⊢
      simp at hmem
      subst hmem
      simp [invokeBuilder, herr, actionWrapMsg]
    | yield f =>
      simp only [dispatch, constructsOf] at hmem ⊢
      simp at hmem
      subst hmem
      simp [invokeBuilder, herr, actionWrapMsg]
    | principalYield f =>
      rcases hU : f.underlying_mint_address with _ | u
      · simp [dispatch, hU, constructsOf] at hmem
      · simp only [dispatch, hU, constructsOf] at hmem ⊢
        simp at hmem
        subst hmem
        simp [invokeBuilder, herr, actionWrapMsg]
  | redeem a =>
    cases a with
    | principal f =>
      rcases hU : f.underlying_mint_address with _ | u
      · simp [dispatch, hU, constructsOf] at hmem
      · simp only [dispatch, hU, constructsOf] at hmem ⊢
        simp at hmem
        subst hmem
        simp [invokeBuilder, herr, actionWrapMsg]
    | principalYield f =>
      rcases hU : f.underlying_mint_address with _ | u
      · simp [dispatch, hU, constructsOf] at hmem
      · simp only [dispatch, hU, constructsOf] at hmem ⊢
        simp at hmem
        subst hmem
        simp [invokeBuilder, herr, actionWrapMsg]
  | claim a =>
    cases a with
    | yield f =>
      rcases hU : f.underlying_mint_address with _ | u
      · simp [dispatch, hU, constructsOf] at hmem
      · simp only [dispatch, hU, constructsOf] at hmem ⊢
        simp at hmem
        subst hmem
        simp [invokeBuilder, herr, actionWrapMsg]
  | burn a =>
    cases a with
    | principal f =>
      simp only [dispatch, constructsOf] at hmem ⊢
      simp at hmem
      subst hmem
      simp [invokeBuilder, herr, actionWrapMsg]
    | yield f =>
      simp only [dispatch, constructsOf] at hmem ⊢
      simp at hmem
      subst hmem
      simp [invokeBuilder, herr, actionWrapMsg]

/-- Environment in which every constructor invocation fails with the
cause `boom` while every expiry is accepted. -/
def failAllEnv : LystEnv := ⟨fun _ => true, "never", fun _ => some "boom"⟩

/-- Witness for C7's amended statement: a failing `burn principal`
construction surfaces with the `BurnPrincipal` wrap message plus the
cause. -/
theorem C7_amended_constructor_failures_wrapped_witness :
    (dispatch failAllEnv (Address.key 1)
        (Commands.burn (BurnAction.principal ⟨Address.key 2, 5, none⟩))).2 =
      Except.error (actionWrapMsg
        (Commands.burn (BurnAction.principal ⟨Address.key 2, 5, none⟩)) ++ "boom") :=
  C7_amended_constructor_failures_wrapped failAllEnv (Address.key 1)
    (Commands.burn (BurnAction.principal ⟨Address.key 2, 5, none⟩))
    (Instr.burnPrincipalToken (Address.key 2)
      (get_principal_mint_address lyst_id (Address.key 2)) (Address.key 1)
      (get_associated_token_address (Address.key 1)
        (get_principal_mint_address lyst_id (Address.key 2))) 5)
    "boom" (by simp [dispatch, constructsOf]) rfl

/-- One representative command per arm of the router's exhaustive
match. -/
def allLeafCommands : List Commands :=
  [Commands.init (InitAction.tokenizer ⟨Address.key 0, 0⟩),
   Commands.init (InitAction.mints ⟨Address.key 0, 0⟩),
   Commands.init (InitAction.tokenizerMints ⟨Address.key 0, 0⟩),
   Commands.tokenize (TokenizeAction.deposit ⟨Address.key 0, 0, none⟩),
   Commands.tokenize (TokenizeAction.principal ⟨Address.key 0, 0, none⟩),
   Commands.tokenize (TokenizeAction.yield ⟨Address.key 0, 0, none⟩),
   Commands.tokenize (TokenizeAction.principalYield ⟨Address.key 0, 0, none⟩),
   Commands.redeem (RedeemAction.principal ⟨Address.key 0, 0, none⟩),
   Commands.redeem (RedeemAction.principalYield ⟨Address.key 0, 0, none⟩),
   Commands.claim (ClaimAction.yield ⟨Address.key 0, 0, none⟩),
   Commands.burn (BurnAction.principal ⟨Address.key 0, 0, none⟩),
   Commands.burn (BurnAction.yield ⟨Address.key 0, 0, none⟩)]

/-- C10 counterexample: the router's exhaustive match has twelve
pairwise-distinct user-facing leaf actions, not ten — the
representative commands of the twelve arms map to twelve distinct
action names. -/
theorem C10_counterexample :
    (allLeafCommands.map actionName).Nodup ∧
    (allLeafCommands.map actionName).length = 12 ∧
    (allLeafCommands.map actionName).length ≠ 10 :=
  ⟨by decide, rfl, by decide⟩

/-- If an external constructor invocation returns `ok i`, the invoked
instruction was `i` itself. -/
theorem invokeBuilder_ok (env : LystEnv) (i₀ : Instr) (m : String) (i : Instr)
    (h : invokeBuilder env i₀ m = Except.ok i) : i = i₀ := by
  rcases hc : env.constructorErr i₀ with _ | e'
  · simp [invokeBuilder, hc] at h
    exact h.symm
  · simp [invokeBuilder, hc] at h

/-- C10 amended: the command router exposes exactly twelve user-facing
leaf actions — `actionName` maps the exhaustive match onto the twelve
distinct names, and every name is reached — and each dispatched
command performs at most one instruction-construction call, exactly
one (the returned instruction) whenever dispatch succeeds. -/
theorem C10_amended_twelve_actions :
    leafActionNames.length = 12 ∧
    (∀ cmd : Commands, actionName cmd ∈ leafActionNames) ∧
    (∀ s : String, s ∈ leafActionNames → ∃ cmd : Commands, actionName cmd = s) ∧
    (∀ (env : LystEnv) (wallet : Address) (cmd : Commands),
      (constructsOf (dispatch env wallet cmd).1).length ≤ 1) ∧
    (∀ (env : LystEnv) (wallet : Address) (cmd : Commands) (i : Instr),
      (dispatch env wallet cmd).2 = Except.ok i →
        constructsOf (dispatch env wallet cmd).1 = [i]) := by
  refine ⟨rfl, ?_, ?_, ?_, ?_⟩
  · intro cmd
    cases cmd <;> (rename_i a; cases a <;> simp [actionName, leafActionNames])
  · intro s hs
    simp only [leafActionNames, List.mem_cons, List.not_mem_nil, or_false] at hs
    rcases hs with rfl | rfl | rfl | rfl | rfl | rfl | rfl | rfl | rfl | rfl | rfl | rfl
    · exact ⟨Commands.init (InitAction.tokenizer ⟨Address.key 0, 0⟩), rfl⟩
    · exact ⟨Commands.init (InitAction.mints ⟨Address.key 0, 0⟩), rfl⟩
    · exact ⟨Commands.init (InitAction.tokenizerMints ⟨Address.key 0, 0⟩), rfl⟩
    · exact ⟨Commands.tokenize (TokenizeAction.deposit ⟨Address.key 0, 0, none⟩), rfl⟩
    · exact ⟨Commands.tokenize (TokenizeAction.principal ⟨Address.key 0, 0, none⟩), rfl⟩
    · exact ⟨Commands.tokenize (TokenizeAction.yield ⟨Address.key 0, 0, none⟩), rfl⟩
    · exact ⟨Commands.tokenize (TokenizeAction.principalYield ⟨Address.key 0, 0, none⟩), rfl⟩
    · exact ⟨Commands.redeem (RedeemAction.principal ⟨Address.key 0, 0, none⟩), rfl⟩
    · exact ⟨Commands.redeem (RedeemAction.principalYield ⟨Address.key 0, 0, none⟩), rfl⟩
    · exact ⟨Commands.claim (ClaimAction.yield ⟨Address.key 0, 0, none⟩), rfl⟩
    · exact ⟨Commands.burn (BurnAction.principal ⟨Address.key 0, 0, none⟩), rfl⟩
    · exact ⟨Commands.burn (BurnAction.yield ⟨Address.key 0, 0, none⟩), rfl⟩
  · intro env wallet cmd
    cases cmd with
    | init a =>
      cases a with
      | tokenizer f =>
        simp only [dispatch]
        cases Expiry_from_i64 env f.expiry <;> simp [constructsOf]
      | mints f => simp [dispatch, constructsOf]
      | tokenizerMints f =>
        simp only [dispatch]
        cases Expiry_from_i64 env f.expiry <;> simp [constructsOf]
    | tokenize a =>
      cases a with
      | deposit f =>
        simp only [dispatch]
        cases f.underlying_mint_address <;> simp [constructsOf]
      | principal f => simp [dispatch, constructsOf]
      | yield f => simp [dispatch, constructsOf]
      | principalYield f =>
        simp only [dispatch]
        cases f.underlying_mint_address <;> simp [constructsOf]
    | redeem a =>
      cases a with
      | principal f =>
        simp only [dispatch]
        cases f.underlying_mint_address <;> simp [constructsOf]
      | principalYield f =>
        simp only [dispatch]
        cases f.underlying_mint_address <;> simp [constructsOf]
    | claim a =>
      cases a with
      | yield f =>
        simp only [dispatch]
        cases f.underlying_mint_address <;> simp [constructsOf]
    | burn a =>
      cases a with
      | principal f => simp [dispatch, constructsOf]
      | yield f => simp [dispatch, constructsOf]
  · intro env wallet cmd i h
    cases cmd with
    | init a =>
      cases a with
      | tokenizer f =>
        rcases hE : Expiry_from_i64 env f.expiry with e' | ex <;>
          simp only [dispatch, hE] at h ⊢
        · exact Except.noConfusion h
        · rw [invokeBuilder_ok _ _ _ _ h]
          simp [constructsOf]
      | mints f =>
        simp only [dispatch] at h ⊢
        rw [invokeBuilder_ok _ _ _ _ h]
        simp [constructsOf]
      | tokenizerMints f =>
        rcases hE : Expiry_from_i64 env f.expiry with e' | ex <;>
          simp only [dispatch, hE] at h ⊢
        · exact Except.noConfusion h
        · rw [invokeBuilder_ok _ _ _ _ h]
          simp [constructsOf]
    | tokenize a =>
      cases a with
      | deposit f =>
        rcases hU : f.underlying_mint_address with _ | u <;>
          simp only [dispatch, hU] at h ⊢
        · exact Except.noConfusion h
        · rw [invokeBuilder_ok _ _ _ _ h]
          simp [constructsOf]
      | principal f =>
        simp only [dispatch] at h ⊢
        rw [invokeBuilder_ok _ _ _ _ h]
        simp [constructsOf]
      | yield f =>
        simp only [dispatch] at h ⊢
        rw [invokeBuilder_ok _ _ _ _ h]
        simp [constructsOf]
      | principalYield f =>
        rcases hU : f.underlying_mint_address with _ | u <;>
          simp only [dispatch, hU] at h ⊢
        · exact Except.noConfusion h
        · rw [invokeBuilder_ok _ _ _ _ h]
          simp [constructsOf]
    | redeem a =>
      cases a with
      | principal f =>
        rcases hU : f.underlying_mint_address with _ | u <;>
          simp only [dispatch, hU] at h ⊢
        · exact Except.noConfusion h
        · rw [invokeBuilder_ok _ _ _ _ h]
          simp [constructsOf]
      | principalYield f =>
        rcases hU : f.underlying_mint_address with _ | u <;>
          simp only [dispatch, hU] at h ⊢
        · exact Except.noConfusion h
        · rw [invokeBuilder_ok _ _ _ _ h]
          simp [constructsOf]
    | claim a =>
      cases a with
      | yield f =>
        rcases hU : f.underlying_mint_address with _ | u <;>
          simp only [dispatch, hU] at h ⊢
        · exact Except.noConfusion h
        · rw [invokeBuilder_ok _ _ _ _ h]
          simp [constructsOf]
    | burn a =>
      cases a with
      | principal f =>
        simp only [dispatch] at h ⊢
        rw [invokeBuilder_ok _ _ _ _ h]
        simp [constructsOf]
      | yield f =>
        simp only [dispatch] at h ⊢
        rw [invokeBuilder_ok _ _ _ _ h]
        simp [constructsOf]

/-- Witness for C10's amended statement at concrete commands: the
`claim-yield` name is reached, and a concrete successful `burn yield`
dispatch performs exactly one construction, returning that
instruction. -/
theorem C10_amended_twelve_actions_witness :
    actionName (Commands.claim (ClaimAction.yield ⟨Address.key 2, 5, none⟩)) ∈
      leafActionNames ∧
    (∃ cmd : Commands, actionName cmd = "claim-yield") ∧
    (constructsOf (dispatch allOkEnv (Address.key 1)
        (Commands.burn (BurnAction.yield ⟨Address.key 2, 5, none⟩))).1).length ≤ 1 ∧
    constructsOf (dispatch allOkEnv (Address.key 1)
        (Commands.burn (BurnAction.yield ⟨Address.key 2, 5, none⟩))).1 =
      [Instr.burnYieldToken (Address.key 2)
        (get_yield_mint_address lyst_id (Address.key 2)) (Address.key 1)
        (get_associated_token_address (Address.key 1)
          (get_yield_mint_address lyst_id (Address.key 2))) 5] :=
  ⟨C10_amended_twelve_actions.2.1 _,
   C10_amended_twelve_actions.2.2.1 "claim-yield" (by decide),
   C10_amended_twelve_actions.2.2.2.1 allOkEnv (Address.key 1) _,
   C10_amended_twelve_actions.2.2.2.2 allOkEnv (Address.key 1) _ _ rfl⟩

end YieldTokenizerCli
